import Mathlib

/-
Verification of the symbolic proxy layer in thunder/core/proxies.py.

The Python source is shallowly embedded: Python numbers become an inductive
PyNum (IEEE floats are modelled as exact rationals with an explicit NaN
marker; results that are irrational in general, such as non-integral powers,
are modelled as NaN), the proxy classes become inductive data, fallible
Python code returns Except PyErr, and the context-local state consulted by
get_langctx / get_tracectx is passed explicitly as an Option parameter.
External collaborator modules (thunder.core.trace, thunder.core.dtypes,
thunder.core.devices, thunder.core.baseutils) are not part of the given
source tree; their small interfaces are modelled from the specification and
marked as such in their doc comments.
-/

set_option autoImplicit false

namespace ThunderProxies

/-- Python type tags used for python_type fields and for the keys of the
number-proxy class map. -/
inductive PyType where
  | bool
  | int
  | float
  | complex
  | noneType
  | str
  deriving DecidableEq, Repr

/-- A Python float, modelled as an exact rational or a NaN marker (none). -/
abbrev PyFloat := Option ℚ

/-- A concrete native Python number: bool, int, float or complex. -/
inductive PyNum where
  | pbool : Bool → PyNum
  | pint : Int → PyNum
  | pfloat : PyFloat → PyNum
  | pcomplex : PyFloat → PyFloat → PyNum
  deriving DecidableEq, Repr

/-- The data of a NumberProxy (proxies.py lines 74-89): a trace-unique name,
the concrete value when statically known (None otherwise), and the
python_type tag recorded at construction. -/
structure NumberProxyData where
  name : String
  value : Option PyNum
  python_type : PyType
  deriving DecidableEq, Repr

/-- Device catalog member. Modelled from the spec: devices are an external
catalog; only membership matters to this layer. -/
inductive Device where
  | cpu
  | cuda : Nat → Device
  deriving DecidableEq, Repr

/-- Base kinds of the external dtype catalog. Modelled from the spec. -/
inductive DTypeKind where
  | bool8
  | int64
  | float32
  | complex64
  deriving DecidableEq, Repr

/-- Modelled from the spec: a dtype of the external catalog, carrying a weak
(Python-number-derived) or strong (normalized) marker. -/
structure DType where
  kind : DTypeKind
  weak : Bool
  deriving DecidableEq, Repr

/-- The data of a TensorProxy (proxies.py lines 1094-1135) after a successful
construction: name, shape, device, normalized strong dtype, the original
(possibly weak) true_dtype, and the derived numel and ndim. -/
structure TensorProxyData where
  name : String
  shape : List Int
  device : Device
  dtype : DType
  true_dtype : DType
  numel : Int
  ndim : Nat
  deriving DecidableEq, Repr

/-- The runtime data of any proxy object, one constructor per concrete class
of proxies.py: Proxy, bare NumberProxy, IntegerProxy, FloatProxy,
ComplexProxy, TensorProxy. -/
inductive ProxyData where
  | base : String → ProxyData
  | number : NumberProxyData → ProxyData
  | integer : NumberProxyData → ProxyData
  | flt : NumberProxyData → ProxyData
  | cplx : NumberProxyData → ProxyData
  | tensor : TensorProxyData → ProxyData
  deriving DecidableEq, Repr

/-- The name attribute of a proxy (Proxy.name property, proxies.py 57-59). -/
def proxyName : ProxyData → String
  | .base n => n
  | .number d => d.name
  | .integer d => d.name
  | .flt d => d.name
  | .cplx d => d.name
  | .tensor t => t.name

/-- The universe of Python values this development manipulates: native
numbers, None, the NotImplemented sentinel, proxies, Variable wrappers,
two-element tuples (divmod results) and opaque non-proxy objects. -/
inductive PyObject where
  | num : PyNum → PyObject
  | pynone : PyObject
  | notImplementedObj : PyObject
  | proxyObj : ProxyData → PyObject
  | variableObj : ProxyData → PyObject
  | tuple2 : PyObject → PyObject → PyObject
  | foreign : String → PyObject
  deriving DecidableEq, Repr

--
-- Variable: the identity wrapper (proxies.py lines 15-29)
--

/-- Variable.__eq__ (proxies.py 22-26): equal to another Variable exactly when
the wrapped proxy names match; every non-Variable compares unequal. The
wrapper on the left is represented by its wrapped proxy. -/
def Variable.dunder_eq (self : ProxyData) (other : PyObject) : Bool :=
  match other with
  | .variableObj q => proxyName self == proxyName q
  | _ => false

/-- Symbolic model of Python hash results: the object a hash was derived
from. Python guarantees equal values hash equal; the claims only need
success and provenance of a hash, never its numeral. -/
inductive HashVal where
  | ofNumber : Option PyNum → HashVal
  | ofString : String → HashVal
  | objectIdentity : String → HashVal
  | pairHash : HashVal → HashVal → HashVal
  deriving DecidableEq, Repr

/-- Variable.__hash__ (proxies.py 19-20): hash of the wrapped proxy name. -/
def Variable.dunder_hash (self : ProxyData) : HashVal :=
  .ofString (proxyName self)

--
-- variableify / unvariableify (proxies.py lines 32-43)
--

/-- variableify (proxies.py 32-36): wrap a ProxyInterface instance in a
Variable, return anything else unchanged. Variable itself is not a
ProxyInterface. -/
def variableify (x : PyObject) : PyObject :=
  match x with
  | .proxyObj p => .variableObj p
  | _ => x

/-- unvariableify (proxies.py 39-43): return the wrapped proxy of a Variable,
return anything else unchanged. -/
def unvariableify (x : PyObject) : PyObject :=
  match x with
  | .variableObj p => .proxyObj p
  | _ => x

/-- Whether a value is a Variable wrapper. -/
def PyObject.isVariableWrapper : PyObject → Bool
  | .variableObj _ => true
  | _ => false


--
-- Python errors and the raise statement
--

/-- The Python exceptions this layer can produce, per the spec error taxonomy
plus the interpreter-level errors the source actually triggers. -/
inductive PyErr where
  | typeError : String → PyErr
  | nameError : String → PyErr
  | attributeError : String → PyErr
  | keyError : PyErr
  | zeroDivisionError : PyErr
  | valueError : String → PyErr
  | duplicateNameError : PyErr
  | noActiveTraceError : PyErr
  | invalidShapeError : PyErr
  deriving DecidableEq, Repr

/-- The raise statement applied to an object that is not a BaseException
instance (such as a proxy or the NotImplemented sentinel): Python itself
raises TypeError. No object of this model is an exception instance. -/
def pyRaise (x : PyObject) : Except PyErr PyObject :=
  match x with
  | _ => .error (PyErr.typeError "exceptions must derive from BaseException")

--
-- Native numeric semantics (the operations Python applies to concrete
-- values when no language context is active)
--

/-- Numeric coercion level: bool and int are level 0, float level 1,
complex level 2. -/
def PyNum.level : PyNum → Nat
  | .pbool _ => 0
  | .pint _ => 0
  | .pfloat _ => 1
  | .pcomplex _ _ => 2

/-- View of a level-0 number as an Int (bools count as 0 or 1); junk on
wider numbers, which the callers exclude. -/
def PyNum.toZ : PyNum → Int
  | .pbool b => if b then 1 else 0
  | .pint n => n
  | .pfloat _ => 0
  | .pcomplex _ _ => 0

/-- Coercion of a level-at-most-1 number to a Python float; junk (NaN) on
complex, which the callers exclude. -/
def PyNum.toF : PyNum → PyFloat
  | .pbool b => some (if b then 1 else 0)
  | .pint n => some (n : ℚ)
  | .pfloat f => f
  | .pcomplex _ _ => none

/-- Coercion of any number to a Python complex (real and imaginary part). -/
def PyNum.toC : PyNum → PyFloat × PyFloat
  | .pcomplex a b => (a, b)
  | n => (n.toF, some 0)

/-- NaN-propagating float addition. -/
def fAdd : PyFloat → PyFloat → PyFloat
  | some x, some y => some (x + y)
  | _, _ => none

/-- NaN-propagating float subtraction. -/
def fSub : PyFloat → PyFloat → PyFloat
  | some x, some y => some (x - y)
  | _, _ => none

/-- NaN-propagating float multiplication. -/
def fMul : PyFloat → PyFloat → PyFloat
  | some x, some y => some (x * y)
  | _, _ => none

/-- NaN-propagating float division used inside complex division, where the
divisor is already known not to be exactly zero. -/
def fDivP : PyFloat → PyFloat → PyFloat
  | some x, some y => if y = 0 then none else some (x / y)
  | _, _ => none

/-- Floor of a rational as a rational (Python float floor division and mod
are floor-based). -/
def qfloorQ (x : ℚ) : ℚ := ((Int.floor x : Int) : ℚ)

/-- The ten binary arithmetic and shift operators of the number proxies. -/
inductive BinOp where
  | add
  | sub
  | mul
  | truediv
  | floordiv
  | mod
  | divmod
  | pow
  | lshift
  | rshift
  deriving DecidableEq, Repr

/-- The forward dunder name of a binary operator (used in error payloads). -/
def BinOp.dunderName : BinOp → String
  | .add => "__add__"
  | .sub => "__sub__"
  | .mul => "__mul__"
  | .truediv => "__truediv__"
  | .floordiv => "__floordiv__"
  | .mod => "__mod__"
  | .divmod => "__divmod__"
  | .pow => "__pow__"
  | .lshift => "__lshift__"
  | .rshift => "__rshift__"

/-- The reflected dunder name of a binary operator. -/
def BinOp.rdunderName : BinOp → String
  | .add => "__radd__"
  | .sub => "__rsub__"
  | .mul => "__rmul__"
  | .truediv => "__rtruediv__"
  | .floordiv => "__rfloordiv__"
  | .mod => "__rmod__"
  | .divmod => "__rdivmod__"
  | .pow => "__rpow__"
  | .lshift => "__rlshift__"
  | .rshift => "__rrshift__"

/-- Native int (level 0) binary semantics: Python int arithmetic, with
floor-based floordiv and mod, true division producing a float, pow with a
negative exponent producing a float, and arithmetic shifts. -/
def intBin : BinOp → Int → Int → Except PyErr PyObject
  | .add, a, b => .ok (.num (.pint (a + b)))
  | .sub, a, b => .ok (.num (.pint (a - b)))
  | .mul, a, b => .ok (.num (.pint (a * b)))
  | .truediv, a, b =>
    if b = 0 then .error PyErr.zeroDivisionError
    else .ok (.num (.pfloat (some ((a : ℚ) / (b : ℚ)))))
  | .floordiv, a, b =>
    if b = 0 then .error PyErr.zeroDivisionError
    else .ok (.num (.pint (Int.fdiv a b)))
  | .mod, a, b =>
    if b = 0 then .error PyErr.zeroDivisionError
    else .ok (.num (.pint (Int.fmod a b)))
  | .divmod, a, b =>
    if b = 0 then .error PyErr.zeroDivisionError
    else .ok (.tuple2 (.num (.pint (Int.fdiv a b))) (.num (.pint (Int.fmod a b))))
  | .pow, a, b =>
    if 0 ≤ b then .ok (.num (.pint (a ^ b.toNat)))
    else if a = 0 then .error PyErr.zeroDivisionError
    else .ok (.num (.pfloat (some ((a : ℚ) ^ b))))
  | .lshift, a, b =>
    if b < 0 then .error (PyErr.valueError "negative shift count")
    else .ok (.num (.pint (a * 2 ^ b.toNat)))
  | .rshift, a, b =>
    if b < 0 then .error (PyErr.valueError "negative shift count")
    else .ok (.num (.pint (Int.fdiv a (2 ^ b.toNat))))

/-- Native float (level 1) binary semantics on the rational model: NaN
propagates, division by exact zero raises ZeroDivisionError, floordiv and
mod are floor-based, pow with a zero exponent is one, with an integral
exponent exact, and otherwise modelled as NaN. Shifts never reach this
level (floats define no shift methods). -/
def floatBin : BinOp → PyFloat → PyFloat → Except PyErr PyObject
  | .add, a, b => .ok (.num (.pfloat (fAdd a b)))
  | .sub, a, b => .ok (.num (.pfloat (fSub a b)))
  | .mul, a, b => .ok (.num (.pfloat (fMul a b)))
  | .truediv, a, b =>
    match b with
    | some q =>
      if q = 0 then .error PyErr.zeroDivisionError
      else .ok (.num (.pfloat (match a with
        | some x => some (x / q)
        | none => none)))
    | none => .ok (.num (.pfloat none))
  | .floordiv, a, b =>
    match b with
    | some q =>
      if q = 0 then .error PyErr.zeroDivisionError
      else .ok (.num (.pfloat (match a with
        | some x => some (qfloorQ (x / q))
        | none => none)))
    | none => .ok (.num (.pfloat none))
  | .mod, a, b =>
    match b with
    | some q =>
      if q = 0 then .error PyErr.zeroDivisionError
      else .ok (.num (.pfloat (match a with
        | some x => some (x - q * qfloorQ (x / q))
        | none => none)))
    | none => .ok (.num (.pfloat none))
  | .divmod, a, b =>
    match b with
    | some q =>
      if q = 0 then .error PyErr.zeroDivisionError
      else .ok (match a with
        | some x => .tuple2 (.num (.pfloat (some (qfloorQ (x / q)))))
            (.num (.pfloat (some (x - q * qfloorQ (x / q)))))
        | none => .tuple2 (.num (.pfloat none)) (.num (.pfloat none)))
    | none => .ok (.tuple2 (.num (.pfloat none)) (.num (.pfloat none)))
  | .pow, a, b =>
    match b with
    | some q =>
      if q = 0 then .ok (.num (.pfloat (some 1)))
      else if q.den = 1 then
        match a with
        | some x =>
          if x = 0 ∧ q.num < 0 then .error PyErr.zeroDivisionError
          else .ok (.num (.pfloat (some (x ^ q.num))))
        | none => .ok (.num (.pfloat none))
      else .ok (.num (.pfloat none))
    | none => .ok (.num (.pfloat (if a = some 1 then some 1 else none)))
  | .lshift, _, _ => .error (PyErr.attributeError "__lshift__")
  | .rshift, _, _ => .error (PyErr.attributeError "__rshift__")

/-- Complex multiplication on the NaN-propagating rational model. -/
def cMul (z w : PyFloat × PyFloat) : PyFloat × PyFloat :=
  (fSub (fMul z.1 w.1) (fMul z.2 w.2), fAdd (fMul z.1 w.2) (fMul z.2 w.1))

/-- Complex division; division by the exact zero complex raises
ZeroDivisionError, NaN propagates. -/
def cDiv (z w : PyFloat × PyFloat) : Except PyErr (PyFloat × PyFloat) :=
  if w.1 = some 0 ∧ w.2 = some 0 then .error PyErr.zeroDivisionError
  else
    let den := fAdd (fMul w.1 w.1) (fMul w.2 w.2)
    .ok (fDivP (fAdd (fMul z.1 w.1) (fMul z.2 w.2)) den,
         fDivP (fSub (fMul z.2 w.1) (fMul z.1 w.2)) den)

/-- Complex natural power by repeated multiplication. -/
def cNpow (z : PyFloat × PyFloat) : Nat → PyFloat × PyFloat
  | 0 => (some 1, some 0)
  | Nat.succ k => cMul z (cNpow z k)

/-- Complex integer power: nonnegative exponents by repeated multiplication,
negative exponents via the reciprocal, zero base to a negative power raises
ZeroDivisionError. -/
def cPow (z : PyFloat × PyFloat) (n : Int) : Except PyErr (PyFloat × PyFloat) :=
  if 0 ≤ n then .ok (cNpow z n.toNat)
  else if z.1 = some 0 ∧ z.2 = some 0 then .error PyErr.zeroDivisionError
  else cDiv (some 1, some 0) (cNpow z n.natAbs)

/-- Native complex (level 2) binary semantics: add, sub, mul, truediv and
integral pow; non-integral powers are modelled as NaN components. The
remaining operators never reach this level (complex defines no floordiv,
mod, divmod or shift methods). -/
def complexBin : BinOp → PyFloat × PyFloat → PyFloat × PyFloat → Except PyErr PyObject
  | .add, z, w => .ok (.num (.pcomplex (fAdd z.1 w.1) (fAdd z.2 w.2)))
  | .sub, z, w => .ok (.num (.pcomplex (fSub z.1 w.1) (fSub z.2 w.2)))
  | .mul, z, w =>
    .ok (.num (.pcomplex (cMul z w).1 (cMul z w).2))
  | .truediv, z, w =>
    match cDiv z w with
    | .error e => .error e
    | .ok r => .ok (.num (.pcomplex r.1 r.2))
  | .pow, z, w =>
    match w with
    | (some q, some i) =>
      if i = 0 ∧ q.den = 1 then
        match cPow z q.num with
        | .error e => .error e
        | .ok r => .ok (.num (.pcomplex r.1 r.2))
      else .ok (.num (.pcomplex none none))
    | _ => .ok (.num (.pcomplex none none))
  | .floordiv, _, _ => .error (PyErr.attributeError "__floordiv__")
  | .mod, _, _ => .error (PyErr.attributeError "__mod__")
  | .divmod, _, _ => .error (PyErr.attributeError "__divmod__")
  | .lshift, _, _ => .error (PyErr.attributeError "__lshift__")
  | .rshift, _, _ => .error (PyErr.attributeError "__rshift__")

/-- Evaluation of a binary operator at a given coercion level, both operands
coerced to that level. -/
def evalBinAt : Nat → BinOp → PyNum → PyNum → Except PyErr PyObject
  | 0, op, a, b => intBin op a.toZ b.toZ
  | 1, op, a, b => floatBin op a.toF b.toF
  | _, op, a, b => complexBin op a.toC b.toC

/-- Whether the concrete type of a number defines the forward (and hence the
reflected) method of a binary operator: floats lack the shift methods and
complex lacks floordiv, mod, divmod and the shifts. -/
def hasBinMethod (n : PyNum) (op : BinOp) : Bool :=
  match n.level, op with
  | 1, .lshift => false
  | 1, .rshift => false
  | 2, .floordiv => false
  | 2, .mod => false
  | 2, .divmod => false
  | 2, .lshift => false
  | 2, .rshift => false
  | _, _ => true

/-- A Python binary operator expression on already-concrete values (the
source uses operator syntax only for plus and times): both operands must be
numbers, which are coerced to the wider level; anything else (such as the
None of an unknown proxy value) raises TypeError. -/
def pyBinOperator (op : BinOp) (a b : PyObject) : Except PyErr PyObject :=
  match a, b with
  | .num x, .num y => evalBinAt (max x.level y.level) op x y
  | _, _ => .error (PyErr.typeError "unsupported operand types")

/-- An explicit forward dunder call x.__op__(y) on concrete values:
AttributeError when the type of x lacks the method (None has no numeric
dunders, floats no shifts, complex no floor family or shifts); the
NotImplemented sentinel when y is not a number or is of a wider level;
otherwise the operation at the level of x. -/
def pyBinMethodCall (op : BinOp) (a b : PyObject) : Except PyErr PyObject :=
  match a with
  | .num x =>
    if hasBinMethod x op then
      match b with
      | .num y =>
        if x.level < y.level then .ok .notImplementedObj
        else evalBinAt x.level op x y
      | _ => .ok .notImplementedObj
    else .error (PyErr.attributeError op.dunderName)
  | _ => .error (PyErr.attributeError op.dunderName)

/-- An explicit reflected dunder call x.__rop__(y) on concrete values: same
availability and level rules as the forward call, computing y op x at the
level of x. -/
def pyRBinMethodCall (op : BinOp) (a b : PyObject) : Except PyErr PyObject :=
  match a with
  | .num x =>
    if hasBinMethod x op then
      match b with
      | .num y =>
        if x.level < y.level then .ok .notImplementedObj
        else evalBinAt x.level op y x
      | _ => .ok .notImplementedObj
    else .error (PyErr.attributeError op.rdunderName)
  | _ => .error (PyErr.attributeError op.rdunderName)

--
-- pyval (proxies.py lines 92-100)
--

/-- The Python object stored in the value attribute of a number proxy: the
number itself when known, None otherwise. -/
def valueObj : Option PyNum → PyObject
  | some n => .num n
  | none => .pynone

/-- pyval (proxies.py 92-100): check_type(x, (NumberProxy, Number)), then
return the stored value of a NumberProxy (possibly None) or the native
number unchanged. Anything else fails the check_type with a TypeError. -/
def pyval (x : PyObject) : Except PyErr PyObject :=
  match x with
  | .proxyObj (.number d) => .ok (valueObj d.value)
  | .proxyObj (.integer d) => .ok (valueObj d.value)
  | .proxyObj (.flt d) => .ok (valueObj d.value)
  | .proxyObj (.cplx d) => .ok (valueObj d.value)
  | .num n => .ok (.num n)
  | _ => .error (PyErr.typeError "check_type")

--
-- The language context interface (thunder.core.langctx, external)
--

/-- Modelled from the spec: the pluggable language context records IR nodes;
this layer only needs one method per supported binary operator name, each
accepting arbitrary operands and returning whatever the context produces. -/
structure LangCtx where
  add : PyObject → PyObject → PyObject
  sub : PyObject → PyObject → PyObject
  mul : PyObject → PyObject → PyObject
  true_divide : PyObject → PyObject → PyObject
  floor_divide : PyObject → PyObject → PyObject
  mod : PyObject → PyObject → PyObject
  divmod : PyObject → PyObject → PyObject
  pow : PyObject → PyObject → PyObject
  lshift : PyObject → PyObject → PyObject
  rshift : PyObject → PyObject → PyObject

/-- The context method named by each binary operator, exactly as the source
methods call it (add, sub, mul, true_divide, floor_divide, mod, divmod,
pow, lshift, rshift). -/
def LangCtx.binMethod (c : LangCtx) : BinOp → PyObject → PyObject → PyObject
  | .add => c.add
  | .sub => c.sub
  | .mul => c.mul
  | .truediv => c.true_divide
  | .floordiv => c.floor_divide
  | .mod => c.mod
  | .divmod => c.divmod
  | .pow => c.pow
  | .lshift => c.lshift
  | .rshift => c.rshift

--
-- The number proxy binary dunders
--
-- The bodies of IntegerProxy, FloatProxy and ComplexProxy are textually
-- identical for every binary operator (IntegerProxy at lines 536-662 and
-- 721-751, FloatProxy at 866-992 and 1050-1080, ComplexProxy at 204-330 and
-- 388-418), so each operator is embedded once over a variant tag.
--

/-- Which concrete number proxy class a dunder is invoked on. -/
inductive NumVariant where
  | integer
  | flt
  | cplx
  deriving DecidableEq, Repr

/-- The proxy object a variant tag and its data denote. -/
def NumVariant.obj : NumVariant → NumberProxyData → PyObject
  | .integer, d => .proxyObj (.integer d)
  | .flt, d => .proxyObj (.flt d)
  | .cplx, d => .proxyObj (.cplx d)

/-- The get_langctx result, passed explicitly: none models no active
language context. -/
abbrev LangCtxState := Option LangCtx

/-- __add__: with no context, pyval(self) + pyval(other); with an active
context, langctx.add(self, other). -/
def NumberProxy.dunder_add (v : NumVariant) (ctx : LangCtxState)
    (self : NumberProxyData) (other : PyObject) : Except PyErr PyObject :=
  match ctx with
  | none => do
    let a ← pyval (v.obj self)
    let b ← pyval other
    pyBinOperator .add a b
  | some langctx => .ok (langctx.add (v.obj self) other)

/-- __radd__: with no context, pyval(other) + pyval(self); with an active
context, langctx.add(other, self). -/
def NumberProxy.dunder_radd (v : NumVariant) (ctx : LangCtxState)
    (self : NumberProxyData) (other : PyObject) : Except PyErr PyObject :=
  match ctx with
  | none => do
    let b ← pyval other
    let a ← pyval (v.obj self)
    pyBinOperator .add b a
  | some langctx => .ok (langctx.add other (v.obj self))

/-- __sub__: with no context, pyval(self).__sub__(pyval(other)); with an
active context, langctx.sub(self, other). -/
def NumberProxy.dunder_sub (v : NumVariant) (ctx : LangCtxState)
    (self : NumberProxyData) (other : PyObject) : Except PyErr PyObject :=
  match ctx with
  | none => do
    let a ← pyval (v.obj self)
    let b ← pyval other
    pyBinMethodCall .sub a b
  | some langctx => .ok (langctx.sub (v.obj self) other)

/-- __rsub__: with no context, pyval(self).__rsub__(pyval(other)); with an
active context, langctx.sub(other, self). -/
def NumberProxy.dunder_rsub (v : NumVariant) (ctx : LangCtxState)
    (self : NumberProxyData) (other : PyObject) : Except PyErr PyObject :=
  match ctx with
  | none => do
    let a ← pyval (v.obj self)
    let b ← pyval other
    pyRBinMethodCall .sub a b
  | some langctx => .ok (langctx.sub other (v.obj self))

/-- __mul__: with no context, pyval(self) * pyval(other); with an active
context, langctx.mul(self, other). -/
def NumberProxy.dunder_mul (v : NumVariant) (ctx : LangCtxState)
    (self : NumberProxyData) (other : PyObject) : Except PyErr PyObject :=
  match ctx with
  | none => do
    let a ← pyval (v.obj self)
    let b ← pyval other
    pyBinOperator .mul a b
  | some langctx => .ok (langctx.mul (v.obj self) other)

/-- __rmul__: with no context, pyval(other) * pyval(self); with an active
context, langctx.mul(other, self). -/
def NumberProxy.dunder_rmul (v : NumVariant) (ctx : LangCtxState)
    (self : NumberProxyData) (other : PyObject) : Except PyErr PyObject :=
  match ctx with
  | none => do
    let b ← pyval other
    let a ← pyval (v.obj self)
    pyBinOperator .mul b a
  | some langctx => .ok (langctx.mul other (v.obj self))

/-- __truediv__: with no context, pyval(self).__truediv__(pyval(other));
with an active context, langctx.true_divide(self, other). -/
def NumberProxy.dunder_truediv (v : NumVariant) (ctx : LangCtxState)
    (self : NumberProxyData) (other : PyObject) : Except PyErr PyObject :=
  match ctx with
  | none => do
    let a ← pyval (v.obj self)
    let b ← pyval other
    pyBinMethodCall .truediv a b
  | some langctx => .ok (langctx.true_divide (v.obj self) other)

/-- __rtruediv__: with no context, pyval(self).__rtruediv__(pyval(other));
with an active context, langctx.true_divide(other, self). -/
def NumberProxy.dunder_rtruediv (v : NumVariant) (ctx : LangCtxState)
    (self : NumberProxyData) (other : PyObject) : Except PyErr PyObject :=
  match ctx with
  | none => do
    let a ← pyval (v.obj self)
    let b ← pyval other
    pyRBinMethodCall .truediv a b
  | some langctx => .ok (langctx.true_divide other (v.obj self))

/-- __floordiv__: with no context, pyval(self).__floordiv__(pyval(other));
with an active context, langctx.floor_divide(self, other). -/
def NumberProxy.dunder_floordiv (v : NumVariant) (ctx : LangCtxState)
    (self : NumberProxyData) (other : PyObject) : Except PyErr PyObject :=
  match ctx with
  | none => do
    let a ← pyval (v.obj self)
    let b ← pyval other
    pyBinMethodCall .floordiv a b
  | some langctx => .ok (langctx.floor_divide (v.obj self) other)

/-- __rfloordiv__: with no context, pyval(self).__rfloordiv__(pyval(other));
with an active context, langctx.floor_divide(other, self). -/
def NumberProxy.dunder_rfloordiv (v : NumVariant) (ctx : LangCtxState)
    (self : NumberProxyData) (other : PyObject) : Except PyErr PyObject :=
  match ctx with
  | none => do
    let a ← pyval (v.obj self)
    let b ← pyval other
    pyRBinMethodCall .floordiv a b
  | some langctx => .ok (langctx.floor_divide other (v.obj self))

/-- __mod__: with no context, pyval(self).__mod__(pyval(other)); with an
active context, langctx.mod(self, other). -/
def NumberProxy.dunder_mod (v : NumVariant) (ctx : LangCtxState)
    (self : NumberProxyData) (other : PyObject) : Except PyErr PyObject :=
  match ctx with
  | none => do
    let a ← pyval (v.obj self)
    let b ← pyval other
    pyBinMethodCall .mod a b
  | some langctx => .ok (langctx.mod (v.obj self) other)

/-- __rmod__: with no context, pyval(self).__rmod__(pyval(other)); with an
active context, langctx.mod(other, self). -/
def NumberProxy.dunder_rmod (v : NumVariant) (ctx : LangCtxState)
    (self : NumberProxyData) (other : PyObject) : Except PyErr PyObject :=
  match ctx with
  | none => do
    let a ← pyval (v.obj self)
    let b ← pyval other
    pyRBinMethodCall .mod a b
  | some langctx => .ok (langctx.mod other (v.obj self))

/-- __divmod__: with no context, pyval(self).__divmod__(pyval(other)); with
an active context, langctx.divmod(self, other). -/
def NumberProxy.dunder_divmod (v : NumVariant) (ctx : LangCtxState)
    (self : NumberProxyData) (other : PyObject) : Except PyErr PyObject :=
  match ctx with
  | none => do
    let a ← pyval (v.obj self)
    let b ← pyval other
    pyBinMethodCall .divmod a b
  | some langctx => .ok (langctx.divmod (v.obj self) other)

/-- __rdivmod__: with no context, pyval(self).__rdivmod__(pyval(other));
with an active context, langctx.divmod(other, self). -/
def NumberProxy.dunder_rdivmod (v : NumVariant) (ctx : LangCtxState)
    (self : NumberProxyData) (other : PyObject) : Except PyErr PyObject :=
  match ctx with
  | none => do
    let a ← pyval (v.obj self)
    let b ← pyval other
    pyRBinMethodCall .divmod a b
  | some langctx => .ok (langctx.divmod other (v.obj self))

/-- __pow__: with no context, pyval(self).__pow__(pyval(other)); with an
active context, langctx.pow(self, other). -/
def NumberProxy.dunder_pow (v : NumVariant) (ctx : LangCtxState)
    (self : NumberProxyData) (other : PyObject) : Except PyErr PyObject :=
  match ctx with
  | none => do
    let a ← pyval (v.obj self)
    let b ← pyval other
    pyBinMethodCall .pow a b
  | some langctx => .ok (langctx.pow (v.obj self) other)

/-- __rpow__: with no context, pyval(self).__rpow__(pyval(other)); with an
active context, langctx.pow(other, self). -/
def NumberProxy.dunder_rpow (v : NumVariant) (ctx : LangCtxState)
    (self : NumberProxyData) (other : PyObject) : Except PyErr PyObject :=
  match ctx with
  | none => do
    let a ← pyval (v.obj self)
    let b ← pyval other
    pyRBinMethodCall .pow a b
  | some langctx => .ok (langctx.pow other (v.obj self))

/-- __lshift__: with no context, pyval(self).__lshift__(pyval(other)); with
an active context, langctx.lshift(self, other). -/
def NumberProxy.dunder_lshift (v : NumVariant) (ctx : LangCtxState)
    (self : NumberProxyData) (other : PyObject) : Except PyErr PyObject :=
  match ctx with
  | none => do
    let a ← pyval (v.obj self)
    let b ← pyval other
    pyBinMethodCall .lshift a b
  | some langctx => .ok (langctx.lshift (v.obj self) other)

/-- __rlshift__: with no context, pyval(self).__rlshift__(pyval(other));
with an active context, langctx.lshift(other, self). -/
def NumberProxy.dunder_rlshift (v : NumVariant) (ctx : LangCtxState)
    (self : NumberProxyData) (other : PyObject) : Except PyErr PyObject :=
  match ctx with
  | none => do
    let a ← pyval (v.obj self)
    let b ← pyval other
    pyRBinMethodCall .lshift a b
  | some langctx => .ok (langctx.lshift other (v.obj self))

/-- __rshift__: with no context, pyval(self).__rshift__(pyval(other)); with
an active context, langctx.rshift(self, other). -/
def NumberProxy.dunder_rshift (v : NumVariant) (ctx : LangCtxState)
    (self : NumberProxyData) (other : PyObject) : Except PyErr PyObject :=
  match ctx with
  | none => do
    let a ← pyval (v.obj self)
    let b ← pyval other
    pyBinMethodCall .rshift a b
  | some langctx => .ok (langctx.rshift (v.obj self) other)

/-- __rrshift__: with no context, pyval(self).__rrshift__(pyval(other));
with an active context, langctx.rshift(other, self). -/
def NumberProxy.dunder_rrshift (v : NumVariant) (ctx : LangCtxState)
    (self : NumberProxyData) (other : PyObject) : Except PyErr PyObject :=
  match ctx with
  | none => do
    let a ← pyval (v.obj self)
    let b ← pyval other
    pyRBinMethodCall .rshift a b
  | some langctx => .ok (langctx.rshift other (v.obj self))

/-- The forward binary dunder a given operator names. -/
def NumberProxy.binDispatch (v : NumVariant) : BinOp → LangCtxState →
    NumberProxyData → PyObject → Except PyErr PyObject
  | .add => NumberProxy.dunder_add v
  | .sub => NumberProxy.dunder_sub v
  | .mul => NumberProxy.dunder_mul v
  | .truediv => NumberProxy.dunder_truediv v
  | .floordiv => NumberProxy.dunder_floordiv v
  | .mod => NumberProxy.dunder_mod v
  | .divmod => NumberProxy.dunder_divmod v
  | .pow => NumberProxy.dunder_pow v
  | .lshift => NumberProxy.dunder_lshift v
  | .rshift => NumberProxy.dunder_rshift v

/-- The reflected binary dunder a given operator names. -/
def NumberProxy.rbinDispatch (v : NumVariant) : BinOp → LangCtxState →
    NumberProxyData → PyObject → Except PyErr PyObject
  | .add => NumberProxy.dunder_radd v
  | .sub => NumberProxy.dunder_rsub v
  | .mul => NumberProxy.dunder_rmul v
  | .truediv => NumberProxy.dunder_rtruediv v
  | .floordiv => NumberProxy.dunder_rfloordiv v
  | .mod => NumberProxy.dunder_rmod v
  | .divmod => NumberProxy.dunder_rdivmod v
  | .pow => NumberProxy.dunder_rpow v
  | .lshift => NumberProxy.dunder_rlshift v
  | .rshift => NumberProxy.dunder_rrshift v

/-- The native fallback of a forward dunder: extract both concrete values
with pyval and apply the corresponding native operation (operator syntax
for plus and times, an explicit forward dunder call for the rest), exactly
as each source method writes it. -/
def nativeForwardBranch (op : BinOp) (selfObj other : PyObject) :
    Except PyErr PyObject :=
  match op with
  | .add => do
    let a ← pyval selfObj
    let b ← pyval other
    pyBinOperator .add a b
  | .mul => do
    let a ← pyval selfObj
    let b ← pyval other
    pyBinOperator .mul a b
  | op => do
    let a ← pyval selfObj
    let b ← pyval other
    pyBinMethodCall op a b

/-- The native fallback of a reflected dunder: for plus and times the
swapped operator expression pyval(other) + pyval(self), for the rest the
explicit reflected call pyval(self).__rop__(pyval(other)). -/
def nativeReflectedBranch (op : BinOp) (selfObj other : PyObject) :
    Except PyErr PyObject :=
  match op with
  | .add => do
    let b ← pyval other
    let a ← pyval selfObj
    pyBinOperator .add b a
  | .mul => do
    let b ← pyval other
    let a ← pyval selfObj
    pyBinOperator .mul b a
  | op => do
    let a ← pyval selfObj
    let b ← pyval other
    pyRBinMethodCall op a b



--
-- The trace context and proxy construction (thunder.core.trace, external)
--

/-- Modelled from the spec: the name context of the active trace, a registry
of allocated names plus a fresh-name counter. -/
structure TraceCtx where
  names : List String
  counter : Nat
  deriving DecidableEq, Repr

/-- Modelled from the spec: make_name returns a fresh name and registers
it. -/
def TraceCtx.make_name (t : TraceCtx) : String × TraceCtx :=
  ("t" ++ toString t.counter, ⟨("t" ++ toString t.counter) :: t.names, t.counter + 1⟩)

/-- Modelled from the spec: add_name registers a caller-supplied name,
failing with DuplicateNameError when it is already registered. -/
def TraceCtx.add_name (t : TraceCtx) (n : String) : Except PyErr TraceCtx :=
  if n ∈ t.names then .error PyErr.duplicateNameError
  else .ok ⟨n :: t.names, t.counter⟩

/-- Proxy.__init__ (proxies.py 48-55): consult the active trace context
(failing when none is active, per the spec of get_tracectx), then either
draw a fresh name or register the given one. Returns the bound name and the
updated context. -/
def Proxy.init (tc : Option TraceCtx) (name : Option String) :
    Except PyErr (String × TraceCtx) :=
  match tc with
  | none => .error PyErr.noActiveTraceError
  | some t =>
    match name with
    | none => .ok t.make_name
    | some n =>
      match t.add_name n with
      | .error e => .error e
      | .ok t2 => .ok (n, t2)

/-- NumberProxy.__init__ (proxies.py 75-78): run Proxy.__init__, then store
value and python_type. -/
def NumberProxy.initBare (tc : Option TraceCtx) (name : Option String)
    (value : Option PyNum) (python_type : PyType) :
    Except PyErr (NumberProxyData × TraceCtx) :=
  match Proxy.init tc name with
  | .error e => .error e
  | .ok (n, tc2) => .ok (⟨n, value, python_type⟩, tc2)

/-- IntegerProxy.__init__ (proxies.py 440-443): python_type is bool when the
value is a bool, else int. -/
def IntegerProxy.init (tc : Option TraceCtx) (name : Option String)
    (value : Option PyNum) : Except PyErr (NumberProxyData × TraceCtx) :=
  NumberProxy.initBare tc name value
    (match value with
      | some (.pbool _) => PyType.bool
      | _ => PyType.int)

/-- FloatProxy.__init__ (proxies.py 772-773). -/
def FloatProxy.init (tc : Option TraceCtx) (name : Option String)
    (value : Option PyNum) : Except PyErr (NumberProxyData × TraceCtx) :=
  NumberProxy.initBare tc name value PyType.float

/-- ComplexProxy.__init__ (proxies.py 110-111). -/
def ComplexProxy.init (tc : Option TraceCtx) (name : Option String)
    (value : Option PyNum) : Except PyErr (NumberProxyData × TraceCtx) :=
  NumberProxy.initBare tc name value PyType.complex

--
-- The dtype catalog interface (thunder.core.dtypes, external)
--

/-- A dtype argument as TensorProxy accepts it: an actual dtype of the
catalog, or a Python number type standing for a weak dtype. -/
inductive DTypeArg where
  | dt : DType → DTypeArg
  | numbertype : PyType → DTypeArg
  deriving DecidableEq, Repr

/-- Modelled from the spec: dtypes.is_numbertype detects a Python number
type passed where a dtype is expected. -/
def is_numbertype : Option DTypeArg → Bool
  | some (.numbertype .bool) => true
  | some (.numbertype .int) => true
  | some (.numbertype .float) => true
  | some (.numbertype .complex) => true
  | _ => false

/-- Modelled from the spec: dtypes.numbertype_to_dtype converts a weak
numeric type to its corresponding weak dtype. -/
def numbertype_to_dtype : PyType → DType
  | .bool => ⟨.bool8, true⟩
  | .int => ⟨.int64, true⟩
  | .float => ⟨.float32, true⟩
  | _ => ⟨.complex64, true⟩

/-- The conversion the source guards with is_numbertype. -/
def numbertype_arg_to_dtype : Option DTypeArg → Option DTypeArg
  | some (.numbertype t) => some (.dt (numbertype_to_dtype t))
  | x => x

/-- Modelled from the spec: dtypes.to_strong_dtype normalizes a dtype to its
strong form. -/
def to_strong_dtype (d : DType) : DType := ⟨d.kind, false⟩

--
-- TensorProxy construction (proxies.py lines 1094-1135)
--

/-- TensorProxy.__init__ (proxies.py 1095-1135): run Proxy.__init__; default
shape, device and dtype from the reference proxy (like), whose true_dtype
seeds the dtype; explicit arguments override; convert a number-type dtype
argument to a (weak) dtype; compute numel as the left fold of multiplication
over the shape (reduce with initial 1) and ndim as its length; validate the
shape (non-negative extents, per baseutils.check_valid_shape modelled from
the spec), the device and the dtype; finally store the pre-normalization
dtype as true_dtype and normalize the stored dtype to its strong form. -/
def TensorProxy.init (tc : Option TraceCtx) (name : Option String)
    (like : Option TensorProxyData) (shape : Option (List Int))
    (device : Option Device) (dtypeArg : Option DTypeArg) :
    Except PyErr (TensorProxyData × TraceCtx) :=
  match Proxy.init tc name with
  | .error e => .error e
  | .ok (n, tc2) =>
    let fromLike : Option (List Int) × Option Device × Option DTypeArg :=
      match like with
      | some l => (some l.shape, some l.device, some (DTypeArg.dt l.true_dtype))
      | none => (none, none, none)
    let shape1 : Option (List Int) :=
      match shape with
      | some sh => some sh
      | none => fromLike.1
    let device1 : Option Device :=
      match device with
      | some d => some d
      | none => fromLike.2.1
    let dtype1 : Option DTypeArg :=
      match dtypeArg with
      | some d => some d
      | none => fromLike.2.2
    let dtype2 : Option DTypeArg :=
      if is_numbertype dtype1 then numbertype_arg_to_dtype dtype1 else dtype1
    match shape1 with
    | none => .error (PyErr.typeError "reduce of NoneType")
    | some s =>
      let numel : Int := s.foldl (fun a b => a * b) 1
      let ndim : Nat := s.length
      if hs : ∀ x ∈ s, 0 ≤ x then
        match device1 with
        | none => .error (PyErr.typeError "check_type Device")
        | some dev =>
          match dtype2 with
          | some (DTypeArg.dt dt) =>
            .ok (⟨n, s, dev, to_strong_dtype dt, dt, numel, ndim⟩, tc2)
          | _ => .error (PyErr.typeError "check_type dtype")
      else .error PyErr.invalidShapeError

--
-- replace_name (proxies.py 61-63, 84-86, 113-115, 445-447, 775-777,
-- 1137-1139)
--

/-- replace_name dispatched by the dynamic class of the receiver, each
branch re-invoking the constructor exactly as the corresponding source
override does: Proxy passes only the name; NumberProxy passes name, value
and python_type; IntegerProxy, FloatProxy and ComplexProxy pass name and
value; TensorProxy passes the name and itself as like. -/
def ProxyData.replace_name (tc : Option TraceCtx) :
    ProxyData → String → Except PyErr (ProxyData × TraceCtx)
  | .base _, n =>
    match Proxy.init tc (some n) with
    | .error e => .error e
    | .ok (m, tc2) => .ok (.base m, tc2)
  | .number d, n =>
    match NumberProxy.initBare tc (some n) d.value d.python_type with
    | .error e => .error e
    | .ok (d2, tc2) => .ok (.number d2, tc2)
  | .integer d, n =>
    match IntegerProxy.init tc (some n) d.value with
    | .error e => .error e
    | .ok (d2, tc2) => .ok (.integer d2, tc2)
  | .flt d, n =>
    match FloatProxy.init tc (some n) d.value with
    | .error e => .error e
    | .ok (d2, tc2) => .ok (.flt d2, tc2)
  | .cplx d, n =>
    match ComplexProxy.init tc (some n) d.value with
    | .error e => .error e
    | .ok (d2, tc2) => .ok (.cplx d2, tc2)
  | .tensor t, n =>
    match TensorProxy.init tc (some n) (some t) none none none with
    | .error e => .error e
    | .ok (t2, tc2) => .ok (.tensor t2, tc2)

/-- The same proxy data with only the name replaced (the specification-side
description of what replace_name must produce). -/
def ProxyData.setName : ProxyData → String → ProxyData
  | .base _, n => .base n
  | .number d, n => .number ⟨n, d.value, d.python_type⟩
  | .integer d, n => .integer ⟨n, d.value, d.python_type⟩
  | .flt d, n => .flt ⟨n, d.value, d.python_type⟩
  | .cplx d, n => .cplx ⟨n, d.value, d.python_type⟩
  | .tensor t, n => .tensor ⟨n, t.shape, t.device, t.dtype, t.true_dtype, t.numel, t.ndim⟩

/-- The invariants every proxy built by the constructors satisfies: variant
python_type tags agree with their constructor, and tensor derived fields
agree with the stored shape and dtypes. -/
def ProxyData.WF : ProxyData → Prop
  | .base _ => True
  | .number _ => True
  | .integer d => d.python_type =
      (match d.value with
        | some (.pbool _) => PyType.bool
        | _ => PyType.int)
  | .flt d => d.python_type = PyType.float
  | .cplx d => d.python_type = PyType.complex
  | .tensor t => (∀ x ∈ t.shape, 0 ≤ x)
      ∧ t.numel = t.shape.foldl (fun a b => a * b) 1
      ∧ t.ndim = t.shape.length
      ∧ t.dtype = to_strong_dtype t.true_dtype

--
-- The number proxy factory (proxies.py lines 1371-1380)
--

/-- IntegerProxy(value=value): the constructor as the factory map stores it,
packaging the result as proxy data. -/
def IntegerProxy.initP (tc : Option TraceCtx) (value : Option PyNum) :
    Except PyErr (ProxyData × TraceCtx) :=
  match IntegerProxy.init tc none value with
  | .error e => .error e
  | .ok (d, tc2) => .ok (.integer d, tc2)

/-- FloatProxy(value=value), packaged as proxy data. -/
def FloatProxy.initP (tc : Option TraceCtx) (value : Option PyNum) :
    Except PyErr (ProxyData × TraceCtx) :=
  match FloatProxy.init tc none value with
  | .error e => .error e
  | .ok (d, tc2) => .ok (.flt d, tc2)

/-- ComplexProxy(value=value), packaged as proxy data. -/
def ComplexProxy.initP (tc : Option TraceCtx) (value : Option PyNum) :
    Except PyErr (ProxyData × TraceCtx) :=
  match ComplexProxy.init tc none value with
  | .error e => .error e
  | .ok (d, tc2) => .ok (.cplx d, tc2)

/-- _cls_to_number_proxy_map (proxies.py 1371-1375): the dict has exactly
the keys float, int and bool; looking up any other class (complex included)
raises KeyError. -/
def _cls_to_number_proxy_map (cls : PyType) :
    Option (Option TraceCtx → Option PyNum → Except PyErr (ProxyData × TraceCtx)) :=
  match cls with
  | .float => some FloatProxy.initP
  | .int => some IntegerProxy.initP
  | .bool => some IntegerProxy.initP
  | _ => none

/-- numberproxy (proxies.py 1378-1380): look the requested kind up in the
class map (KeyError when absent) and invoke the stored constructor on the
value. -/
def numberproxy (tc : Option TraceCtx) (cls : PyType) (value : Option PyNum) :
    Except PyErr (ProxyData × TraceCtx) :=
  match _cls_to_number_proxy_map cls with
  | none => .error PyErr.keyError
  | some pcls => pcls tc value

--
-- dtype conversion dunders (proxies.py 191-198, 523-530, 853-860)
--

/-- ComplexProxy.__complex__ (proxies.py 191-192): raise self. The proxy is
not an exception, so the raise itself fails with TypeError. -/
def ComplexProxy.dunder_complex (self : NumberProxyData) : Except PyErr PyObject :=
  pyRaise (.proxyObj (.cplx self))

/-- ComplexProxy.__float__ (proxies.py 194-195): raise NotImplemented. -/
def ComplexProxy.dunder_float (self : NumberProxyData) : Except PyErr PyObject :=
  pyRaise .notImplementedObj

/-- ComplexProxy.__int__ (proxies.py 197-198): raise NotImplemented. -/
def ComplexProxy.dunder_int (self : NumberProxyData) : Except PyErr PyObject :=
  pyRaise .notImplementedObj

/-- IntegerProxy.__complex__ (proxies.py 523-524): raise NotImplemented. -/
def IntegerProxy.dunder_complex (self : NumberProxyData) : Except PyErr PyObject :=
  pyRaise .notImplementedObj

/-- IntegerProxy.__float__ (proxies.py 526-527): raise NotImplemented. -/
def IntegerProxy.dunder_float (self : NumberProxyData) : Except PyErr PyObject :=
  pyRaise .notImplementedObj

/-- IntegerProxy.__int__ (proxies.py 529-530): return self. -/
def IntegerProxy.dunder_int (self : NumberProxyData) : Except PyErr PyObject :=
  .ok (.proxyObj (.integer self))

/-- FloatProxy.__complex__ (proxies.py 853-854): raise NotImplemented. -/
def FloatProxy.dunder_complex (self : NumberProxyData) : Except PyErr PyObject :=
  pyRaise .notImplementedObj

/-- FloatProxy.__float__ (proxies.py 856-857): return self. -/
def FloatProxy.dunder_float (self : NumberProxyData) : Except PyErr PyObject :=
  .ok (.proxyObj (.flt self))

/-- FloatProxy.__int__ (proxies.py 859-860): raise NotImplemented. -/
def FloatProxy.dunder_int (self : NumberProxyData) : Except PyErr PyObject :=
  pyRaise .notImplementedObj

--
-- __pos__ (proxies.py 165-169, 497-501, 827-831, 1190-1191)
--

/-- The lookup of the bare name langctx from inside a proxies.py function
body: the module imports get_langctx and langctx_for but never binds a name
langctx, so the lookup raises NameError. -/
def readModuleGlobal_langctx : Except PyErr LangCtxState :=
  .error (PyErr.nameError "langctx")

/-- An explicit call x.__pos__() on a concrete value: identity on numbers
(a positive bool becomes the int 1, as in Python); None has no __pos__. -/
def pyUnaryPos (a : PyObject) : Except PyErr PyObject :=
  match a with
  | .num (.pbool b) => .ok (.num (.pint (if b then 1 else 0)))
  | .num n => .ok (.num n)
  | _ => .error (PyErr.attributeError "__pos__")

/-- The __pos__ of the three number proxies (ComplexProxy 165-169,
IntegerProxy 497-501, FloatProxy 827-831), whose identical bodies test the
unbound module name langctx instead of calling get_langctx: the name lookup
raises before either branch can run. -/
def NumberProxy.dunder_pos (v : NumVariant) (self : NumberProxyData) :
    Except PyErr PyObject :=
  match readModuleGlobal_langctx with
  | .error e => .error e
  | .ok none =>
    match pyval (v.obj self) with
    | .error e => .error e
    | .ok a => pyUnaryPos a
  | .ok (some _) => .ok (v.obj self)

/-- TensorProxy.__pos__ (proxies.py 1190-1191): return self. -/
def TensorProxy.dunder_pos (t : TensorProxyData) : Except PyErr PyObject :=
  .ok (.proxyObj (.tensor t))

--
-- Hashability (proxies.py 80-82, 1234-1236)
--

/-- Python resolves hash(x) through type(x).__hash__, and a class body that
defines __eq__ without also defining __hash__ gets __hash__ set to None,
making its instances unhashable. Proxy defines neither, so it keeps the
default object hash; NumberProxy defines __hash__ = hash(self.value)
(proxies.py 80-82) and no variant overrides __eq__ (the comparison dunders
are commented out), so all number proxies inherit it; TensorProxy defines
__eq__ (proxies.py 1234-1236) and no __hash__, so hash(t) raises TypeError,
modelled as none. -/
def proxyHashImpl : ProxyData → Option HashVal
  | .base n => some (.objectIdentity n)
  | .number d => some (.ofNumber d.value)
  | .integer d => some (.ofNumber d.value)
  | .flt d => some (.ofNumber d.value)
  | .cplx d => some (.ofNumber d.value)
  | .tensor _ => none

/-- hash() over the whole object universe: numbers hash by value, None by
its singleton, strings and default objects symbolically, tuples by their
components, and proxies per proxyHashImpl; none models an unhashable
receiver (TypeError). -/
def pyHashObj : PyObject → Option HashVal
  | .num n => some (.ofNumber (some n))
  | .pynone => some (.ofNumber none)
  | .notImplementedObj => some (.objectIdentity "NotImplemented")
  | .proxyObj p => proxyHashImpl p
  | .variableObj p => some (Variable.dunder_hash p)
  | .tuple2 a b =>
    match pyHashObj a, pyHashObj b with
    | some h1, some h2 => some (.pairHash h1 h2)
    | _, _ => none
  | .foreign sRef => some (.objectIdentity sRef)



/-- Decidable equality of Except results, for evaluating the model on
concrete inputs. -/
instance instDecidableEqExcept {e a : Type} [DecidableEq e] [DecidableEq a] :
    DecidableEq (Except e a) := fun x y =>
  match x, y with
  | .error u, .error v =>
    if h : u = v then .isTrue (congrArg Except.error h)
    else .isFalse (fun hh => h (Except.error.inj hh))
  | .ok u, .ok v =>
    if h : u = v then .isTrue (congrArg Except.ok h)
    else .isFalse (fun hh => h (Except.ok.inj hh))
  | .error _, .ok _ => .isFalse (fun hh => Except.noConfusion hh)
  | .ok _, .error _ => .isFalse (fun hh => Except.noConfusion hh)


end ThunderProxies

namespace ThunderProxies

/-- C7: two Variable wrappers are wrap-equal exactly when the names of their
wrapped proxies are equal, whatever the other attributes; a wrapper is never
equal to a non-wrapper value, including the bare proxy it wraps; and the
wrapper hash is determined solely by the wrapped proxy name. -/
theorem variable_wrap_equality (p q : ProxyData) (x : PyObject) :
    (Variable.dunder_eq p (.variableObj q) = true ↔ proxyName p = proxyName q)
    ∧ ((∀ r : ProxyData, x ≠ .variableObj r) → Variable.dunder_eq p x = false)
    ∧ Variable.dunder_eq p (.proxyObj p) = false
    ∧ (proxyName p = proxyName q → Variable.dunder_hash p = Variable.dunder_hash q) := by
  refine ⟨?_, ?_, rfl, ?_⟩
  · simp [Variable.dunder_eq]
  · intro hx
    cases x with
    | variableObj r => exact absurd rfl (hx r)
    | num n => rfl
    | pynone => rfl
    | notImplementedObj => rfl
    | proxyObj p => rfl
    | tuple2 a b => rfl
    | foreign s => rfl
  · intro h
    simp [Variable.dunder_hash, h]

/-- C7 witness: two FloatProxy instances with the same name and different
values wrap-equal; a wrapper is not equal to a native number nor to the bare
proxy it wraps. -/
theorem variable_wrap_equality_witness :
    Variable.dunder_eq (.flt ⟨"a", some (.pfloat (some 1)), .float⟩)
        (.variableObj (.flt ⟨"a", some (.pfloat (some 2)), .float⟩)) = true
    ∧ Variable.dunder_eq (.flt ⟨"a", some (.pfloat (some 1)), .float⟩)
        (.num (.pint 0)) = false
    ∧ Variable.dunder_eq (.flt ⟨"a", some (.pfloat (some 1)), .float⟩)
        (.proxyObj (.flt ⟨"a", some (.pfloat (some 1)), .float⟩)) = false := by
  refine ⟨?_, ?_, ?_⟩
  · exact (variable_wrap_equality (.flt ⟨"a", some (.pfloat (some 1)), .float⟩)
      (.flt ⟨"a", some (.pfloat (some 2)), .float⟩) (.num (.pint 0))).1.mpr rfl
  · exact (variable_wrap_equality (.flt ⟨"a", some (.pfloat (some 1)), .float⟩)
      (.flt ⟨"a", some (.pfloat (some 2)), .float⟩) (.num (.pint 0))).2.1
      (fun r h => PyObject.noConfusion h)
  · exact (variable_wrap_equality (.flt ⟨"a", some (.pfloat (some 1)), .float⟩)
      (.flt ⟨"a", some (.pfloat (some 1)), .float⟩) (.num (.pint 0))).2.2.1

/-- C10 counterexample: wrapping then unwrapping is not the identity on a
value that is already a Variable: variableify leaves the wrapper unchanged
(a Variable is not a ProxyInterface) and unvariableify then unwraps it, so
the roundtrip returns the bare wrapped proxy instead of the wrapper. -/
theorem variable_roundtrip_counterexample :
    unvariableify (variableify (PyObject.variableObj (.base "x")))
      ≠ PyObject.variableObj (.base "x") := by
  decide

/-- C10 amended: unvariableify after variableify is the identity on every
value that is not itself a Variable wrapper (proxies get wrapped and
unwrapped back to the same proxy, non-proxies pass through both functions
unchanged); on a Variable the roundtrip returns its wrapped proxy. -/
theorem variableify_roundtrip_amended (x : PyObject) :
    ((∀ r : ProxyData, x ≠ .variableObj r) →
      unvariableify (variableify x) = x)
    ∧ (∀ p : ProxyData,
      unvariableify (variableify (.variableObj p)) = .proxyObj p) := by
  constructor
  · intro hx
    cases x with
    | variableObj r => exact absurd rfl (hx r)
    | num n => rfl
    | pynone => rfl
    | notImplementedObj => rfl
    | proxyObj p => rfl
    | tuple2 a b => rfl
    | foreign s => rfl
  · intro p
    rfl

/-- C10 amended witness: the roundtrip is the identity on a native number and
on a wrapped proxy, and unwraps a Variable to its proxy. -/
theorem variableify_roundtrip_amended_witness :
    unvariableify (variableify (PyObject.num (.pint 3))) = PyObject.num (.pint 3)
    ∧ unvariableify (variableify (PyObject.proxyObj (.base "p")))
        = PyObject.proxyObj (.base "p")
    ∧ unvariableify (variableify (PyObject.variableObj (.base "q")))
        = PyObject.proxyObj (.base "q") := by
  refine ⟨?_, ?_, ?_⟩
  · exact (variableify_roundtrip_amended (PyObject.num (.pint 3))).1
      (fun r h => PyObject.noConfusion h)
  · exact (variableify_roundtrip_amended (PyObject.proxyObj (.base "p"))).1
      (fun r h => PyObject.noConfusion h)
  · exact (variableify_roundtrip_amended (PyObject.num (.pint 3))).2 (.base "q")


/-- C1: for every binary arithmetic or shift operator on every number proxy
variant, with no active language context the dunder returns the result of
the corresponding native operation applied to the concrete values extracted
by pyval from both operands (for example IntegerProxy(value=3) plus
IntegerProxy(value=4) evaluates to the native 7); with an active context
the forward dunder returns exactly what the same-named context method
produces on the proxy operands themselves, and every reflected dunder calls
that same context method with the operands in swapped order. -/
theorem numberProxy_binary_dispatch (v : NumVariant) (op : BinOp)
    (self : NumberProxyData) (other : PyObject) :
    NumberProxy.binDispatch v op none self other
      = nativeForwardBranch op (v.obj self) other
    ∧ NumberProxy.rbinDispatch v op none self other
      = nativeReflectedBranch op (v.obj self) other
    ∧ (∀ c : LangCtx, NumberProxy.binDispatch v op (some c) self other
      = .ok (c.binMethod op (v.obj self) other))
    ∧ (∀ c : LangCtx, NumberProxy.rbinDispatch v op (some c) self other
      = .ok (c.binMethod op other (v.obj self)))
    ∧ NumberProxy.binDispatch .integer .add none ⟨"a", some (.pint 3), .int⟩
      (.proxyObj (.integer ⟨"b", some (.pint 4), .int⟩)) = .ok (.num (.pint 7)) := by
  cases op <;>
    exact ⟨rfl, rfl, fun c => rfl, fun c => rfl, rfl⟩


/-- The left fold of multiplication starting from an accumulator equals the
accumulator times the list product. -/
lemma foldl_mul_eq_mul_prod (l : List Int) (a : Int) :
    l.foldl (fun x y => x * y) a = a * l.prod := by
  induction l generalizing a with
  | nil => simp
  | cons x xs ih => simp [ih, List.prod_cons]; ring

/-- C8: the hash of every number proxy (bare NumberProxy and all three
variants) equals the hash of its stored concrete value, not of its name;
in particular hash of IntegerProxy named a with value 5 is hash(5). -/
theorem numberProxy_hash_eq_value_hash (d : NumberProxyData) :
    pyHashObj (.proxyObj (.integer d)) = pyHashObj (valueObj d.value)
    ∧ pyHashObj (.proxyObj (.flt d)) = pyHashObj (valueObj d.value)
    ∧ pyHashObj (.proxyObj (.cplx d)) = pyHashObj (valueObj d.value)
    ∧ pyHashObj (.proxyObj (.number d)) = pyHashObj (valueObj d.value)
    ∧ pyHashObj (.proxyObj (.integer ⟨"a", some (.pint 5), .int⟩))
      = pyHashObj (.num (.pint 5)) := by
  have hv : ∀ v : Option PyNum, pyHashObj (valueObj v) = some (.ofNumber v) := by
    intro v
    cases v with
    | none => rfl
    | some n => rfl
  refine ⟨?_, ?_, ?_, ?_, rfl⟩ <;> simp [pyHashObj, proxyHashImpl, hv]

/-- C2: a successfully constructed TensorProxy is unhashable (its class
defines __eq__ without __hash__, so its __hash__ slot is None and hash
raises TypeError), while the base Proxy and every number proxy hash
successfully. -/
theorem tensorProxy_unhashable_eval :
    TensorProxy.init (some ⟨[], 0⟩) (some "t") none (some [2, 3]) (some .cpu)
        (some (.dt ⟨.float32, false⟩))
      = .ok (⟨"t", [2, 3], .cpu, ⟨.float32, false⟩, ⟨.float32, false⟩, 6, 2⟩, ⟨["t"], 0⟩)
    ∧ pyHashObj (.proxyObj (.tensor
        ⟨"t", [2, 3], .cpu, ⟨.float32, false⟩, ⟨.float32, false⟩, 6, 2⟩)) = none
    ∧ pyHashObj (.proxyObj (.base "p")) = some (.objectIdentity "p")
    ∧ pyHashObj (.proxyObj (.integer ⟨"i", some (.pint 5), .int⟩))
      = some (.ofNumber (some (.pint 5)))
    ∧ pyHashObj (.proxyObj (.flt ⟨"f", some (.pfloat (some 1)), .float⟩))
      = some (.ofNumber (some (.pfloat (some 1))))
    ∧ pyHashObj (.proxyObj (.cplx ⟨"c", none, .complex⟩))
      = some (.ofNumber none)
    ∧ pyHashObj (.proxyObj (.number ⟨"n", some (.pbool true), .bool⟩))
      = some (.ofNumber (some (.pbool true))) := by
  decide

/-- C3: the matching-kind conversions of IntegerProxy and FloatProxy return
the proxy itself and every mismatched conversion fails, but the
matching-kind conversion of ComplexProxy also fails: its body is raise self
instead of return self, and raising a non-exception is a TypeError. -/
theorem conversion_dunders_eval :
    IntegerProxy.dunder_int ⟨"i", some (.pint 5), .int⟩
      = .ok (.proxyObj (.integer ⟨"i", some (.pint 5), .int⟩))
    ∧ FloatProxy.dunder_float ⟨"f", some (.pfloat (some 2)), .float⟩
      = .ok (.proxyObj (.flt ⟨"f", some (.pfloat (some 2)), .float⟩))
    ∧ ComplexProxy.dunder_complex ⟨"c", some (.pcomplex (some 1) (some 2)), .complex⟩
      = .error (.typeError "exceptions must derive from BaseException")
    ∧ ComplexProxy.dunder_float ⟨"c", some (.pcomplex (some 1) (some 2)), .complex⟩
      = .error (.typeError "exceptions must derive from BaseException")
    ∧ ComplexProxy.dunder_int ⟨"c", some (.pcomplex (some 1) (some 2)), .complex⟩
      = .error (.typeError "exceptions must derive from BaseException")
    ∧ IntegerProxy.dunder_float ⟨"i", some (.pint 5), .int⟩
      = .error (.typeError "exceptions must derive from BaseException")
    ∧ IntegerProxy.dunder_complex ⟨"i", some (.pint 5), .int⟩
      = .error (.typeError "exceptions must derive from BaseException")
    ∧ FloatProxy.dunder_int ⟨"f", some (.pfloat (some 2)), .float⟩
      = .error (.typeError "exceptions must derive from BaseException")
    ∧ FloatProxy.dunder_complex ⟨"f", some (.pfloat (some 2)), .float⟩
      = .error (.typeError "exceptions must derive from BaseException") := by
  decide

/-- C4: unary plus on each number proxy raises NameError (the method bodies
read the unbound module name langctx instead of calling get_langctx), with
or without an active context, instead of returning the proxy; only
TensorProxy.__pos__ returns self. -/
theorem pos_dunder_eval :
    NumberProxy.dunder_pos .integer ⟨"i", some (.pint 3), .int⟩
      = .error (.nameError "langctx")
    ∧ NumberProxy.dunder_pos .flt ⟨"f", some (.pfloat (some 2)), .float⟩
      = .error (.nameError "langctx")
    ∧ NumberProxy.dunder_pos .cplx ⟨"c", some (.pcomplex (some 1) (some 0)), .complex⟩
      = .error (.nameError "langctx")
    ∧ TensorProxy.dunder_pos ⟨"t", [2], .cpu, ⟨.float32, false⟩, ⟨.float32, false⟩, 2, 1⟩
      = .ok (.proxyObj (.tensor
          ⟨"t", [2], .cpu, ⟨.float32, false⟩, ⟨.float32, false⟩, 2, 1⟩)) := by
  decide

/-- C5: on every well-formed proxy, replacing the name with a fresh one
returns a new instance of the same concrete variant whose name is the given
one and all of whose other attributes equal the originals (value and
python_type for number proxies; shape, device, dtype, true_dtype, numel and
ndim for tensor proxies). -/
theorem replace_name_preserves (p : ProxyData) (n : String) (tc : TraceCtx)
    (hwf : p.WF) (hfresh : n ∉ tc.names) :
    ProxyData.replace_name (some tc) p n
      = .ok (p.setName n, ⟨n :: tc.names, tc.counter⟩) := by
  cases p with
  | base m =>
    simp [ProxyData.replace_name, Proxy.init, TraceCtx.add_name, hfresh,
      ProxyData.setName]
  | number d =>
    simp [ProxyData.replace_name, NumberProxy.initBare, Proxy.init,
      TraceCtx.add_name, hfresh, ProxyData.setName]
  | integer d =>
    simp only [ProxyData.WF] at hwf
    simp [ProxyData.replace_name, IntegerProxy.init, NumberProxy.initBare,
      Proxy.init, TraceCtx.add_name, hfresh, ProxyData.setName, hwf]
  | flt d =>
    simp only [ProxyData.WF] at hwf
    simp [ProxyData.replace_name, FloatProxy.init, NumberProxy.initBare,
      Proxy.init, TraceCtx.add_name, hfresh, ProxyData.setName, hwf]
  | cplx d =>
    simp only [ProxyData.WF] at hwf
    simp [ProxyData.replace_name, ComplexProxy.init, NumberProxy.initBare,
      Proxy.init, TraceCtx.add_name, hfresh, ProxyData.setName, hwf]
  | tensor t =>
    simp only [ProxyData.WF] at hwf
    obtain ⟨hnn, hnumel, hndim, hdt⟩ := hwf
    simp [ProxyData.replace_name, TensorProxy.init, Proxy.init,
      TraceCtx.add_name, hfresh, is_numbertype, numbertype_arg_to_dtype,
      ProxyData.setName, hnumel, hndim, hdt]
    rw [if_pos hnn]

/-- C5 witness: renaming a TensorProxy of shape (2,3) on cpu with a strong
float32 dtype derived from a weak true_dtype preserves shape, device,
dtype, true_dtype, numel and ndim while binding the new name. -/
theorem replace_name_preserves_witness :
    ProxyData.replace_name (some ⟨["x"], 1⟩)
        (.tensor ⟨"x", [2, 3], .cpu, ⟨.float32, false⟩, ⟨.float32, true⟩, 6, 2⟩) "y"
      = .ok (.tensor ⟨"y", [2, 3], .cpu, ⟨.float32, false⟩, ⟨.float32, true⟩, 6, 2⟩,
          ⟨["y", "x"], 1⟩) :=
  replace_name_preserves
    (.tensor ⟨"x", [2, 3], .cpu, ⟨.float32, false⟩, ⟨.float32, true⟩, 6, 2⟩)
    "y" ⟨["x"], 1⟩ ⟨by decide, by decide, by decide, by decide⟩ (by decide)

/-- C6: every successfully constructed TensorProxy has numel equal to the
product of its shape entries and ndim equal to the length of its shape;
these fields are part of the immutable constructed value. -/
theorem tensorProxy_numel_ndim (tc : Option TraceCtx) (name : Option String)
    (like : Option TensorProxyData) (shape : Option (List Int))
    (device : Option Device) (dtypeArg : Option DTypeArg)
    (t : TensorProxyData) (tc2 : TraceCtx)
    (h : TensorProxy.init tc name like shape device dtypeArg = .ok (t, tc2)) :
    t.numel = t.shape.prod ∧ t.ndim = t.shape.length := by
  unfold TensorProxy.init at h
  repeat' split at h
  all_goals try exact Except.noConfusion h
  all_goals dsimp only [] at h
  all_goals repeat' split at h
  all_goals try exact Except.noConfusion h
  all_goals injection h with h1
  all_goals rw [Prod.mk.injEq] at h1
  all_goals obtain ⟨h2, h3⟩ := h1
  all_goals subst h2
  all_goals exact ⟨by simpa using foldl_mul_eq_mul_prod _ 1, rfl⟩

/-- C6 witness: shape (2,3,4) constructs with numel 24 and ndim 3, and the
empty shape constructs with numel 1 and ndim 0. -/
theorem tensorProxy_numel_ndim_witness :
    ((⟨"t", [2, 3, 4], .cpu, ⟨.float32, false⟩, ⟨.float32, false⟩, 24, 3⟩ :
        TensorProxyData).numel
      = List.prod [2, 3, 4]
    ∧ (⟨"t", [2, 3, 4], .cpu, ⟨.float32, false⟩, ⟨.float32, false⟩, 24, 3⟩ :
        TensorProxyData).ndim = 3)
    ∧ ((⟨"z", [], .cpu, ⟨.float32, false⟩, ⟨.float32, false⟩, 1, 0⟩ :
        TensorProxyData).numel = List.prod []
    ∧ (⟨"z", [], .cpu, ⟨.float32, false⟩, ⟨.float32, false⟩, 1, 0⟩ :
        TensorProxyData).ndim = 0) :=
  ⟨tensorProxy_numel_ndim (some ⟨[], 0⟩) (some "t") none (some [2, 3, 4])
      (some .cpu) (some (.dt ⟨.float32, false⟩))
      ⟨"t", [2, 3, 4], .cpu, ⟨.float32, false⟩, ⟨.float32, false⟩, 24, 3⟩
      ⟨["t"], 0⟩ (by decide),
    tensorProxy_numel_ndim (some ⟨[], 0⟩) (some "z") none (some [])
      (some .cpu) (some (.dt ⟨.float32, false⟩))
      ⟨"z", [], .cpu, ⟨.float32, false⟩, ⟨.float32, false⟩, 1, 0⟩
      ⟨["z"], 0⟩ (by decide)⟩

/-- C9 counterexample: requesting the complex kind from numberproxy raises
KeyError (the class map has no complex entry) instead of constructing a
ComplexProxy. -/
theorem numberproxy_complex_keyError :
    numberproxy (some ⟨[], 0⟩) PyType.complex (some (.pcomplex (some 1) (some 2)))
      = .error PyErr.keyError := rfl

/-- C9 amended: for the kinds bool, int and float, numberproxy constructs
the variant matching the requested kind (IntegerProxy for bool and int,
FloatProxy for float) holding the given value, dispatching on the kind
alone; for the complex kind the class map has no entry and numberproxy
raises KeyError. -/
theorem numberproxy_kind_dispatch_amended (tc : TraceCtx) (value : Option PyNum) :
    (∀ cls : PyType, cls = PyType.int ∨ cls = PyType.bool →
      numberproxy (some tc) cls value
        = .ok (.integer ⟨tc.make_name.1, value,
            (match value with
              | some (.pbool _) => PyType.bool
              | _ => PyType.int)⟩, tc.make_name.2))
    ∧ numberproxy (some tc) PyType.float value
      = .ok (.flt ⟨tc.make_name.1, value, PyType.float⟩, tc.make_name.2)
    ∧ numberproxy (some tc) PyType.complex value = .error PyErr.keyError := by
  refine ⟨?_, rfl, rfl⟩
  intro cls hcls
  rcases hcls with rfl | rfl
  · rfl
  · rfl

/-- C9 amended witness: int, bool and float kinds construct the matching
variants holding the given values. -/
theorem numberproxy_kind_dispatch_amended_witness :
    numberproxy (some ⟨[], 0⟩) PyType.int (some (.pint 5))
      = .ok (.integer ⟨"t0", some (.pint 5), PyType.int⟩, ⟨["t0"], 1⟩)
    ∧ numberproxy (some ⟨[], 0⟩) PyType.bool (some (.pbool true))
      = .ok (.integer ⟨"t0", some (.pbool true), PyType.bool⟩, ⟨["t0"], 1⟩)
    ∧ numberproxy (some ⟨[], 0⟩) PyType.float (some (.pfloat (some 2)))
      = .ok (.flt ⟨"t0", some (.pfloat (some 2)), PyType.float⟩, ⟨["t0"], 1⟩) := by
  refine ⟨?_, ?_, ?_⟩
  · exact (numberproxy_kind_dispatch_amended ⟨[], 0⟩ (some (.pint 5))).1
      PyType.int (Or.inl rfl)
  · exact (numberproxy_kind_dispatch_amended ⟨[], 0⟩ (some (.pbool true))).1
      PyType.bool (Or.inr rfl)
  · exact (numberproxy_kind_dispatch_amended ⟨[], 0⟩ (some (.pfloat (some 2)))).2.1

end ThunderProxies
